import Mathlib

/-!
Verification of the ArduinoTempLogger firmware
(`src/Firmware/TemperatureLogger/TemperatureLogger.ino`).

The numeric code is embedded over `ℚ` (the C `float`/`double` arithmetic is
idealised as exact rational arithmetic).  The calibration table
`TempToOhms` from `Thermistor-103J-G1J.h` is not part of the sources, so
the converter is parameterised by an arbitrary table `tbl : ℕ → ℚ`; the
spec's only stated invariant about it is that resistance strictly
decreases as the index increases.
-/

namespace TempLogger

/-- Pin definition `#define START 2` (start/stop logging button pin),
reused by `readThermistorValue` as the base of its loop index. -/
def START : ℕ := 2

/-- `const int END = 380`: one past the last table index. -/
def END : ℕ := 380

/-- `const int TEMP_OFFSET = -80`: index 0 of the table is -80 °C. -/
def TEMP_OFFSET : ℚ := -80

/-- The firmware's float rewrite of Arduino `map`:
`(x - in_min) * (out_max - out_min) / (in_max - in_min) + out_min`. -/
def map (x in_min in_max out_min out_max : ℚ) : ℚ :=
  (x - in_min) * (out_max - out_min) / (in_max - in_min) + out_min

/-- The `for (int i = ...; i < END; i++)` loop body of
`readThermistorValue`, with the remaining iteration count made explicit as
fuel (the caller passes `END - start`, so fuel runs out exactly when
`i = END`).  At index `i` it tests `TempToOhms[i] < r`; on a hit it
returns `map(r, TempToOhms[i-1], TempToOhms[i], i-1, i) + TEMP_OFFSET`,
otherwise it moves on; falling off the end leaves `temp = -9999.0`. -/
def readLoop (tbl : ℕ → ℚ) (r : ℚ) : ℕ → ℕ → ℚ
  | _, 0 => -9999
  | i, fuel+1 =>
    if tbl i < r then
      map r (tbl (i-1)) (tbl i) ((i:ℚ) - 1) (i:ℚ) + TEMP_OFFSET
    else
      readLoop tbl r (i+1) fuel

/-- `readThermistorValue`, resistance-to-temperature part: the source loop
is `for (int i = START + 1; i < END; i++)`, so the scan begins at table
index `START + 1 = 3`. -/
def readThermistorValue (tbl : ℕ → ℚ) (r : ℚ) : ℚ :=
  readLoop tbl r (START + 1) (END - (START + 1))

/-- Scan variant following the spec's words instead of the source: the
spec prescribes a linear scan of the calibration table from index 1
upward (it calls the source's `START + 1` starting point a bug, `START`
being a pin-number constant). -/
def readThermistorValueSpec (tbl : ℕ → ℚ) (r : ℚ) : ℚ :=
  readLoop tbl r 1 (END - 1)

/-- `const double VIN = 5.0`. -/
def VIN : ℚ := 5

/-- `const double R2 = 10000.0`: the fixed divider resistor. -/
def R2 : ℚ := 10000

/-- `double Vtherm = reading / 1024.0 * VIN;` from `readResistorOhms`. -/
def Vtherm (reading : ℕ) : ℚ := (reading : ℚ) / 1024 * VIN

/-- `readResistorOhms` without the `analogRead` call: the raw reading is
passed in.  `double resistance = R2 / (VIN / Vtherm - 1);`. -/
def readResistorOhms (reading : ℕ) : ℚ :=
  R2 / (VIN / Vtherm reading - 1)

/-- Modelled from the spec: the calibration table data `TempToOhms`
(`Thermistor-103J-G1J.h`) is missing from the sources; the spec states
only that resistance strictly decreases as the index increases.  `tblEx`
is one concrete table with that property, used to evaluate the converter
at specific inputs. -/
def tblEx : ℕ → ℚ
  | 0 => 1100
  | 1 => 1000
  | 2 => 900
  | n + 3 => 500 - (n : ℚ)

/-- If the first index `j ≥ i` whose table value drops strictly below `r`
is reached within the available fuel, the loop stops there and
interpolates between entries `j-1` and `j`. -/
theorem readLoop_found (tbl : ℕ → ℚ) (r : ℚ) :
    ∀ fuel i j, i ≤ j → j < i + fuel →
      (∀ k, i ≤ k → k < j → ¬ tbl k < r) → tbl j < r →
      readLoop tbl r i fuel
        = map r (tbl (j-1)) (tbl j) ((j:ℚ) - 1) (j:ℚ) + TEMP_OFFSET := by
  intro fuel
  induction fuel with
  | zero => intro i j hij hlt _ _; omega
  | succ n ih =>
    intro i j hij hlt hnone hj
    by_cases hi : tbl i < r
    · have hij' : i = j := by
        by_contra hne
        exact hnone i le_rfl (by omega) hi
      subst hij'
      simp [readLoop, hi]
    · have hij' : i < j := by
        rcases Nat.eq_or_lt_of_le hij with h | h
        · exact absurd (h ▸ hj) hi
        · exact h
      have hrec := ih (i+1) j (by omega) (by omega)
        (fun k hk1 hk2 => hnone k (by omega) hk2) hj
      simp [readLoop, hi, hrec]

/-- If no index within the available fuel has a table value strictly below
`r`, the loop falls off the end and returns the sentinel `-9999`. -/
theorem readLoop_none (tbl : ℕ → ℚ) (r : ℚ) :
    ∀ fuel i, (∀ k, i ≤ k → k < i + fuel → ¬ tbl k < r) →
      readLoop tbl r i fuel = -9999 := by
  intro fuel
  induction fuel with
  | zero => intro i _; rfl
  | succ n ih =>
    intro i hnone
    have hi : ¬ tbl i < r := hnone i le_rfl (by omega)
    have hrec := ih (i+1) (fun k h1 h2 => hnone k (by omega) (by omega))
    simp [readLoop, hi, hrec]

/-- Adjacent strict decrease up to index 379 gives the antitone property
on the whole table range. -/
theorem tbl_anti (tbl : ℕ → ℚ) (hdec : ∀ i, i < 379 → tbl (i+1) < tbl i) :
    ∀ b, b ≤ 379 → ∀ a, a ≤ b → tbl b ≤ tbl a := by
  intro b
  induction b with
  | zero =>
    intro _ a ha
    have h0 : a = 0 := Nat.le_zero.mp ha
    rw [h0]
  | succ c ih =>
    intro hb a ha
    rcases Nat.eq_or_lt_of_le ha with h | h
    · rw [h]
    · have hac : a ≤ c := by omega
      exact le_trans (le_of_lt (hdec c (by omega))) (ih (by omega) a hac)

/-- The example table strictly decreases at every adjacent pair below 379. -/
theorem tblEx_dec : ∀ i, i < 379 → tblEx (i+1) < tblEx i := by
  intro i _
  match i with
  | 0 => norm_num [tblEx]
  | 1 => norm_num [tblEx]
  | 2 => norm_num [tblEx]
  | n+3 =>
    show tblEx ((n+1)+3) < tblEx (n+3)
    simp only [tblEx]
    push_cast
    linarith

/-- C1: the claim (and the spec) prescribe a scan of the calibration
table from index 1 upward; the source's loop `for (int i = START + 1; ...)`
reuses the pin constant `START = 2` and therefore starts at index 3.
Evaluated at the failing input (a strictly decreasing table with entries
1100, 1000, 900, 500, ... and resistance 950, which lies between entries
2 and 1): the code extrapolates from entries 2–3 and returns -625/8
(-78.125 °C), while the scan-from-1 algorithm the claim states
interpolates entries 1–2 and returns -157/2 (-78.5 °C). -/
theorem claimC1_start_index_bug :
    (∀ i, i < 379 → tblEx (i+1) < tblEx i) ∧
    readThermistorValue tblEx 950 = -625/8 ∧
    readThermistorValueSpec tblEx 950 = -157/2 ∧
    readThermistorValue tblEx 950 ≠ readThermistorValueSpec tblEx 950 := by
  have hcode : readThermistorValue tblEx 950 = -625/8 := by
    unfold readThermistorValue
    rw [readLoop_found tblEx 950 (END - (START+1)) (START+1) 3
      (by norm_num [START]) (by norm_num [START, END])
      (fun k hk1 hk2 => by simp [START] at hk1; omega)
      (by norm_num [tblEx])]
    norm_num [map, tblEx, TEMP_OFFSET]
  have hspec : readThermistorValueSpec tblEx 950 = -157/2 := by
    unfold readThermistorValueSpec
    rw [readLoop_found tblEx 950 (END - 1) 1 2
      (by norm_num) (by norm_num [END])
      (fun k hk1 hk2 => by
        have hk : k = 1 := by omega
        subst hk
        norm_num [tblEx])
      (by norm_num [tblEx])]
    norm_num [map, tblEx, TEMP_OFFSET]
  refine ⟨tblEx_dec, hcode, hspec, ?_⟩
  rw [hcode, hspec]
  norm_num

/-- C2, counterexample: the claim says every resistance strictly greater
than the table's maximum calibration value (index 1) yields the sentinel
-9999.0.  On the code the opposite happens: with the strictly decreasing
table `tblEx` (index 1 holds 1000) and input 2000, the very first scanned
entry (index 3) is already below the input, so the converter returns an
extrapolated value, not the sentinel. -/
theorem claimC2_counterexample :
    (∀ i, i < 379 → tblEx (i+1) < tblEx i) ∧
    tblEx 1 < 2000 ∧
    readThermistorValue tblEx 2000 ≠ -9999 := by
  refine ⟨tblEx_dec, by norm_num [tblEx], ?_⟩
  unfold readThermistorValue
  rw [readLoop_found tblEx 2000 (END - (START+1)) (START+1) 3
    (by norm_num [START]) (by norm_num [START, END])
    (fun k hk1 hk2 => by simp [START] at hk1; omega)
    (by norm_num [tblEx])]
  norm_num [map, tblEx, TEMP_OFFSET]

/-- Shared helper: an input at or below the table's minimum entry (index
379) makes the scan fall through and return the sentinel. -/
theorem readTherm_sentinel_of_le_min (tbl : ℕ → ℚ)
    (hdec : ∀ i, i < 379 → tbl (i+1) < tbl i)
    (r : ℚ) (hr : r ≤ tbl 379) :
    readThermistorValue tbl r = -9999 := by
  unfold readThermistorValue
  apply readLoop_none
  intro k hk1 hk2
  simp only [START, END] at hk1 hk2
  have h379 : tbl 379 ≤ tbl k :=
    tbl_anti tbl hdec 379 le_rfl k (by omega)
  exact not_lt.mpr (le_trans hr h379)

/-- C2, amended: the sentinel is produced at the opposite end of the
table: for every strictly decreasing table and every input resistance
less than or equal to the table's minimum calibration value (the entry at
index 379), no scanned entry is strictly below the input, so
`readThermistorValue` returns -9999 (rather than failing). -/
theorem claimC2_sentinel_at_minimum (tbl : ℕ → ℚ)
    (hdec : ∀ i, i < 379 → tbl (i+1) < tbl i)
    (r : ℚ) (hr : r ≤ tbl 379) :
    readThermistorValue tbl r = -9999 :=
  readTherm_sentinel_of_le_min tbl hdec r hr

/-- C2, witness: the amended theorem applied to the concrete table
`tblEx` (whose minimum, at index 379, is 124) and the input 100. -/
theorem claimC2_sentinel_witness : readThermistorValue tblEx 100 = -9999 :=
  claimC2_sentinel_at_minimum tblEx tblEx_dec 100 (by norm_num [tblEx])

/-- C7, counterexample: the claim says an input equal to the table entry
at any valid index `i` (valid range [0, 379]) returns exactly
`i + TEMP_OFFSET`.  At `i = 379` the scan condition
`TempToOhms[i] < r` is never satisfied (no entry is strictly below the
table's own minimum), so the code returns the sentinel -9999 instead of
379 + TEMP_OFFSET = 299. -/
theorem claimC7_counterexample :
    (∀ i, i < 379 → tblEx (i+1) < tblEx i) ∧
    readThermistorValue tblEx (tblEx 379) = -9999 ∧
    (-9999 : ℚ) ≠ (379 : ℚ) + TEMP_OFFSET := by
  refine ⟨tblEx_dec, ?_, by norm_num [TEMP_OFFSET]⟩
  exact readTherm_sentinel_of_le_min tblEx tblEx_dec (tblEx 379) le_rfl

/-- C7, amended: exactness at table entries holds for the indices the
scan can actually bracket: for every strictly decreasing table and every
index `i` with `2 ≤ i ≤ 378`, an input resistance exactly equal to the
table entry at `i` makes the converter stop at `i+1` and interpolate with
zero error, returning exactly `i + TEMP_OFFSET`.  (Indices 0 and 1 are
excluded by the scan's start at index 3; index 379 falls through to the
sentinel, see the counterexample.) -/
theorem claimC7_exact_at_entries (tbl : ℕ → ℚ)
    (hdec : ∀ i, i < 379 → tbl (i+1) < tbl i)
    (i : ℕ) (h2 : 2 ≤ i) (h378 : i ≤ 378) :
    readThermistorValue tbl (tbl i) = (i : ℚ) + TEMP_OFFSET := by
  unfold readThermistorValue
  rw [readLoop_found tbl (tbl i) (END - (START+1)) (START+1) (i+1)
    (by simp only [START]; omega) (by simp only [START, END]; omega)
    (fun k hk1 hk2 => by
      have hk : k ≤ i := by omega
      have h379 : i ≤ 379 := by omega
      exact not_lt.mpr (tbl_anti tbl hdec i h379 k hk))
    (hdec i (by omega))]
  have hsub : i + 1 - 1 = i := by omega
  rw [hsub, map]
  push_cast
  ring

/-- C7, witness: the amended theorem applied to the concrete table
`tblEx` at index 5 (entry value 498): the converter returns exactly
5 + TEMP_OFFSET. -/
theorem claimC7_exact_witness :
    readThermistorValue tblEx (tblEx 5) = (5 : ℚ) + TEMP_OFFSET :=
  claimC7_exact_at_entries tblEx tblEx_dec 5 (by norm_num) (by norm_num)

/-- C9: the voltage-divider conversion.  For every raw reading in
[1, 1023] the computed resistance `R2 / (VIN / Vtherm - 1)` equals the
closed form `10000 * reading / (1024 - reading)`, and the mid-scale
reading 512 yields exactly 10000 Ω. -/
theorem claimC9_divider_formula :
    (∀ reading : ℕ, 1 ≤ reading → reading ≤ 1023 →
      readResistorOhms reading
        = 10000 * (reading : ℚ) / (1024 - (reading : ℚ))) ∧
    readResistorOhms 512 = 10000 := by
  constructor
  · intro reading h1 h1023
    have hx : (reading : ℚ) ≠ 0 := Nat.cast_ne_zero.mpr (by omega)
    have hx2 : (1024 : ℚ) - (reading : ℚ) ≠ 0 := by
      have hlt : (reading : ℚ) < 1024 := by
        exact_mod_cast (by omega : reading < 1024)
      linarith
    rw [readResistorOhms, Vtherm, VIN, R2]
    have hv : (5 : ℚ) / ((reading : ℚ) / 1024 * 5) - 1
        = (1024 - (reading : ℚ)) / (reading : ℚ) := by
      field_simp
      ring
    rw [hv, div_div_eq_mul_div]
  · norm_num [readResistorOhms, Vtherm, VIN, R2]

/-- C9, witness: the formula and the exact mid-scale value at
reading 512. -/
theorem claimC9_witness :
    readResistorOhms 512 = 10000 * (512 : ℚ) / (1024 - (512 : ℚ)) ∧
    readResistorOhms 512 = 10000 :=
  ⟨claimC9_divider_formula.1 512 (by norm_num) (by norm_num),
   claimC9_divider_formula.2⟩

/-- C10: at raw reading 0 the divider voltage `Vtherm` is exactly 0, so
the source expression `VIN / Vtherm` divides by zero; for every reading
in [1, 1023] both denominators (`Vtherm` and `VIN / Vtherm - 1`) are
nonzero; and `Vtherm` never reaches `VIN` (the saturation condition the
spec worries about) for any representable reading in [0, 1023]. -/
theorem claimC10_division_by_zero :
    Vtherm 0 = 0 ∧
    (∀ reading : ℕ, 1 ≤ reading → reading ≤ 1023 →
      Vtherm reading ≠ 0 ∧ VIN / Vtherm reading - 1 ≠ 0) ∧
    (∀ reading : ℕ, reading ≤ 1023 → Vtherm reading ≠ VIN) := by
  refine ⟨by norm_num [Vtherm], ?_, ?_⟩
  · intro reading h1 h1023
    have hx : (0 : ℚ) < (reading : ℚ) := by
      exact_mod_cast (by omega : 0 < reading)
    have hx2 : (reading : ℚ) < 1024 := by
      exact_mod_cast (by omega : reading < 1024)
    constructor
    · rw [Vtherm, VIN]
      positivity
    · rw [Vtherm, VIN]
      intro hzero
      rw [div_sub_one (by positivity)] at hzero
      have h5 : (5 : ℚ) - (reading : ℚ) / 1024 * 5 = 0 :=
        (div_eq_zero_iff.mp hzero).resolve_right (by positivity)
      have : (reading : ℚ) = 1024 := by
        field_simp at h5
        linarith
      linarith
  · intro reading h1023
    have hx2 : (reading : ℚ) < 1024 := by
      exact_mod_cast (by omega : reading < 1024)
    rw [Vtherm, VIN]
    intro heq
    have : (reading : ℚ) = 1024 := by
      field_simp at heq
      linarith
    linarith

/-- C10, witness: the zero-reading denominator really is zero, and the
denominators at reading 512 really are nonzero. -/
theorem claimC10_witness :
    Vtherm 0 = 0 ∧
    (Vtherm 512 ≠ 0 ∧ VIN / Vtherm 512 - 1 ≠ 0) ∧
    Vtherm 512 ≠ VIN :=
  ⟨claimC10_division_by_zero.1,
   claimC10_division_by_zero.2.1 512 (by norm_num) (by norm_num),
   claimC10_division_by_zero.2.2 512 (by norm_num)⟩

/-- `%02d` on a (nonnegative) time field: zero-padded to two digits. -/
def fmt02 (n : ℕ) : String :=
  if n < 10 then "0" ++ toString n else toString n

/-- One `%d.%d` temperature field of the record, with the arguments
`v/100` and `abs(v%100)` that `logData` passes to `snprintf` (C `int`
division and remainder truncate toward zero, so `Int.tdiv`/`Int.tmod`). -/
def tempField (v : ℤ) : String :=
  toString (Int.tdiv v 100) ++ "." ++ toString (Int.natAbs (Int.tmod v 100))

/-- The record built by `logData`:
`snprintf(buffer, LINE_LEN, "%02d:%02d:%02d,%d.%d,%d.%d,%d.%d", hour,
minute, second, v1/100, abs(v1%100), ...)`. -/
def logLine (h m s : ℕ) (v1 v2 v3 : ℤ) : String :=
  fmt02 h ++ ":" ++ fmt02 m ++ ":" ++ fmt02 s ++ ","
    ++ tempField v1 ++ "," ++ tempField v2 ++ "," ++ tempField v3

/-- The log filename built by `startLog`:
`snprintf(buffer, LINE_LEN, "%02dT%02d%02d.csv", day, hour, minute)`. -/
def startFileName (d h mi : ℕ) : String :=
  fmt02 d ++ "T" ++ fmt02 h ++ fmt02 mi ++ ".csv"

/-- Observable actions of one `loop` cycle: serial prints and file
operations, in program order. -/
inductive Event where
  | serialLine (s : String)
  | fileLine (s : String)
  | started (name : String)
  | openFile (name : String)
  | closeFile
  | stopped
deriving DecidableEq

/-- The firmware's session globals: `_triggered`, `_logging`, and whether
`_myFile` currently holds a successfully opened file. -/
structure LoggerState where
  triggered : Bool
  logging : Bool
  fileOpen : Bool
deriving DecidableEq

/-- Per-cycle environment: the RTC timestamp, the three scaled
temperature values handed to `logData`, and whether `SD.open` succeeds
this cycle. -/
structure Env where
  day : ℕ
  hour : ℕ
  minute : ℕ
  second : ℕ
  v1 : ℤ
  v2 : ℤ
  v3 : ℤ
  openOk : Bool
deriving DecidableEq

/-- `startLog`: prints `Recording started: <name>`, then
`_myFile = SD.open(name, FILE_WRITE)`.  The open result is never
checked; the returned flag records whether the handle is actually
usable. -/
def startLog (env : Env) : Bool × List Event :=
  (env.openOk,
   [Event.started (startFileName env.day env.hour env.minute),
    Event.openFile (startFileName env.day env.hour env.minute)])

/-- `stopLog`: `_myFile.close()`, then prints `Recording stopped`. -/
def stopLog : Bool × List Event :=
  (false, [Event.closeFile, Event.stopped])

/-- The toggle-consumption block at the top of `loop`: if `_triggered`
is set it is cleared, and `_logging` is flipped with the matching
`startLog`/`stopLog` call. -/
def checkToggle (env : Env) (st : LoggerState) : LoggerState × List Event :=
  if st.triggered then
    if st.logging then
      ({ triggered := false, logging := false, fileOpen := stopLog.1 },
       stopLog.2)
    else
      ({ triggered := false, logging := true, fileOpen := (startLog env).1 },
       (startLog env).2)
  else (st, [])

/-- `logData`: builds the record, writes it to `_myFile` only when
`_logging` is set, and always echoes it to `Serial`. -/
def logData (env : Env) (st : LoggerState) : List Event :=
  (if st.logging then
    [Event.fileLine (logLine env.hour env.minute env.second env.v1 env.v2 env.v3)]
  else []) ++
    [Event.serialLine (logLine env.hour env.minute env.second env.v1 env.v2 env.v3)]

/-- One pass of `loop`: consume a pending toggle, then log. -/
def loopCycle (env : Env) (st : LoggerState) : LoggerState × List Event :=
  ((checkToggle env st).1,
   (checkToggle env st).2 ++ logData env (checkToggle env st).1)

/-- `logIsr`, the button ISR: `_triggered = true` (its LED feedback does
not touch the session state). -/
def logIsr (st : LoggerState) : LoggerState :=
  { st with triggered := true }

/-- `N` button presses before the next cycle boundary: the ISR runs `N`
times. -/
def pressN : ℕ → LoggerState → LoggerState
  | 0, st => st
  | n+1, st => logIsr (pressN n st)

/-- `pressN` (the ISR) never touches `_logging`. -/
theorem pressN_preserves (n : ℕ) (st : LoggerState) :
    (pressN n st).logging = st.logging := by
  induction n with
  | zero => rfl
  | succ k ih => simpa [pressN, logIsr] using ih

/-- At least one press leaves `_triggered` set. -/
theorem pressN_triggered (n : ℕ) (hn : 1 ≤ n) (st : LoggerState) :
    (pressN n st).triggered = true := by
  cases n with
  | zero => omega
  | succ k => simp [pressN, logIsr]

/-- C3: the session state is the boolean `_logging`, so there are exactly
two states.  On a cycle with a pending toggle: from Inactive the
controller goes Active, opens a stream named from the current timestamp
(`startFileName`), and emits the `Recording started` notification; from
Active it goes Inactive, closes the stream, and emits the
`Recording stopped` notification. -/
theorem claimC3_toggle_transitions (env : Env) (st : LoggerState)
    (hT : st.triggered = true) :
    (st.logging = false →
      (loopCycle env st).1.logging = true ∧
      Event.started (startFileName env.day env.hour env.minute)
        ∈ (loopCycle env st).2 ∧
      Event.openFile (startFileName env.day env.hour env.minute)
        ∈ (loopCycle env st).2) ∧
    (st.logging = true →
      (loopCycle env st).1.logging = false ∧
      Event.closeFile ∈ (loopCycle env st).2 ∧
      Event.stopped ∈ (loopCycle env st).2) := by
  cases hl : st.logging <;>
    simp [loopCycle, checkToggle, startLog, stopLog, logData, hT, hl]

/-- A concrete cycle environment in which `SD.open` succeeds. -/
def envW : Env := ⟨7, 14, 5, 9, 2345, -530, 10000, true⟩

/-- Inactive state with a pending toggle. -/
def stInactive : LoggerState := ⟨true, false, false⟩

/-- C3, witness: the toggle transition evaluated at a concrete pending
press in the Inactive state. -/
theorem claimC3_witness :
    (stInactive.logging = false →
      (loopCycle envW stInactive).1.logging = true ∧
      Event.started (startFileName envW.day envW.hour envW.minute)
        ∈ (loopCycle envW stInactive).2 ∧
      Event.openFile (startFileName envW.day envW.hour envW.minute)
        ∈ (loopCycle envW stInactive).2) ∧
    (stInactive.logging = true →
      (loopCycle envW stInactive).1.logging = false ∧
      Event.closeFile ∈ (loopCycle envW stInactive).2 ∧
      Event.stopped ∈ (loopCycle envW stInactive).2) :=
  claimC3_toggle_transitions envW stInactive rfl

/-- The cycle environment of the C4 failing input: a pending toggle is
consumed while `SD.open` fails. -/
def envOpenFail : Env := ⟨7, 14, 5, 9, 0, 0, 0, false⟩

/-- C4: the claim (following the spec's required failure semantics) says
a failed stream-open during an Inactive-to-Active toggle must force the
session back to Inactive.  The source never checks the result of
`SD.open` — `_logging` is set to `true` before `startLog()` runs and
nothing resets it — so at the failing input the controller stays Active
with no usable file handle, contradicting the claim. -/
theorem claimC4_open_failure_stays_active :
    (loopCycle envOpenFail stInactive).1.logging = true ∧
    (loopCycle envOpenFail stInactive).1.fileOpen = false := by
  constructor <;> rfl

/-- C5: toggle coalescing.  `N ≥ 1` ISR invocations before a cycle
boundary all write the same single-slot flag, so the next cycle performs
exactly one transition (`_logging` ends up flipped, and the flag is
cleared); a cycle with no pending toggle leaves the state unchanged. -/
theorem claimC5_toggle_coalescing (env : Env) (st : LoggerState) (N : ℕ)
    (hN : 1 ≤ N) :
    (loopCycle env (pressN N st)).1.logging = !st.logging ∧
    (loopCycle env (pressN N st)).1.triggered = false ∧
    (st.triggered = false → (loopCycle env st).1 = st) := by
  have h1 := pressN_preserves N st
  have h2 := pressN_triggered N hN st
  refine ⟨?_, ?_, ?_⟩
  · cases hl : st.logging <;>
      simp [loopCycle, checkToggle, startLog, stopLog, h2, h1, hl]
  · cases hl : st.logging <;>
      simp [loopCycle, checkToggle, startLog, stopLog, h2, h1, hl]
  · intro ht
    simp [loopCycle, checkToggle, ht]

/-- An idle state: no pending toggle, not logging. -/
def stIdle : LoggerState := ⟨false, false, false⟩

/-- C5, witness: three presses collapse to one transition from the idle
state, and the idle state without presses does not transition. -/
theorem claimC5_witness :
    (loopCycle envW (pressN 3 stIdle)).1.logging = !stIdle.logging ∧
    (loopCycle envW (pressN 3 stIdle)).1.triggered = false ∧
    (stIdle.triggered = false → (loopCycle envW stIdle).1 = stIdle) :=
  claimC5_toggle_coalescing envW stIdle 3 (by norm_num)

/-- C6: in every cycle the formatted record reaches the serial
(diagnostic) sink unconditionally, and it is written to the output file
exactly when the session is Active in that cycle (the state after the
toggle, which is also the cycle's final state). -/
theorem claimC6_serial_always_file_iff_active (env : Env) (st : LoggerState) :
    Event.serialLine (logLine env.hour env.minute env.second env.v1 env.v2 env.v3)
      ∈ (loopCycle env st).2 ∧
    (Event.fileLine (logLine env.hour env.minute env.second env.v1 env.v2 env.v3)
        ∈ (loopCycle env st).2
      ↔ (loopCycle env st).1.logging = true) := by
  cases ht : st.triggered <;> cases hl : st.logging <;>
    simp [loopCycle, checkToggle, startLog, stopLog, logData, ht, hl]

/-- Claim-side formulation of the integer part: division by 100
truncating toward zero, written through natural division of the absolute
value. -/
def truncDiv100 (v : ℤ) : ℤ :=
  if 0 ≤ v then ((v.toNat / 100 : ℕ) : ℤ) else -(((-v).toNat / 100 : ℕ) : ℤ)

/-- Claim-side formulation of the fractional part: the remainder modulo
100 with its sign dropped. -/
def dropSignFrac (v : ℤ) : ℕ := v.natAbs % 100

/-- Claim-side rendering of one temperature field: integer part, dot,
sign-dropped fractional part. -/
def tempFieldSpec (v : ℤ) : String :=
  toString (truncDiv100 v) ++ "." ++ toString (dropSignFrac v)

/-- C `v / 100` (which truncates toward zero) agrees with the claim's
truncating division. -/
theorem tdiv_eq_trunc (v : ℤ) : Int.tdiv v 100 = truncDiv100 v := by
  cases v with
  | ofNat n =>
    show Int.ofNat (n / 100) = truncDiv100 (Int.ofNat n)
    rw [truncDiv100, if_pos (show (0:ℤ) ≤ Int.ofNat n from Int.ofNat_nonneg n)]
    rfl
  | negSucc n =>
    show -Int.ofNat ((n+1) / 100) = truncDiv100 (Int.negSucc n)
    rw [truncDiv100, if_neg (not_le.mpr (Int.negSucc_lt_zero n))]
    rfl

/-- C `abs(v % 100)` agrees with the claim's sign-dropped fractional
part. -/
theorem tmod_natAbs (v : ℤ) : (Int.tmod v 100).natAbs = dropSignFrac v := by
  cases v with
  | ofNat n =>
    show (Int.ofNat (n % 100)).natAbs = dropSignFrac (Int.ofNat n)
    rw [dropSignFrac]
    rfl
  | negSucc n =>
    show (-Int.ofNat ((n+1) % 100)).natAbs = dropSignFrac (Int.negSucc n)
    rw [dropSignFrac, Int.natAbs_neg]
    rfl

/-- `%02d` really produces two characters for any value below 100. -/
theorem fmt02_len (n : ℕ) (h : n < 100) : (fmt02 n).length = 2 := by
  have hall : ∀ m : Fin 100, (fmt02 m.val).length = 2 := by decide
  exact hall ⟨n, h⟩

/-- C8: for every timestamp and every triple of scaled-hundredths values,
the record has two-digit zero-padded hour, minute and second fields, and
each temperature value `v` is rendered as its toward-zero-truncated
integer part `v/100`, a dot, and the sign-dropped fractional part
`abs(v % 100)`. -/
theorem claimC8_record_format (h m s : ℕ) (v1 v2 v3 : ℤ)
    (hh : h < 24) (hm : m < 60) (hs : s < 60) :
    (fmt02 h).length = 2 ∧ (fmt02 m).length = 2 ∧ (fmt02 s).length = 2 ∧
    logLine h m s v1 v2 v3
      = fmt02 h ++ ":" ++ fmt02 m ++ ":" ++ fmt02 s ++ ","
        ++ tempFieldSpec v1 ++ "," ++ tempFieldSpec v2 ++ "," ++ tempFieldSpec v3 := by
  refine ⟨fmt02_len h (by omega), fmt02_len m (by omega), fmt02_len s (by omega), ?_⟩
  simp [logLine, tempField, tempFieldSpec, tdiv_eq_trunc, tmod_natAbs]

/-- C8, witness: the format theorem evaluated at timestamp 14:05:09 and
values 23.45, -5.30, 100.00 given in hundredths. -/
theorem claimC8_witness :
    (fmt02 14).length = 2 ∧ (fmt02 5).length = 2 ∧ (fmt02 9).length = 2 ∧
    logLine 14 5 9 2345 (-530) 10000
      = fmt02 14 ++ ":" ++ fmt02 5 ++ ":" ++ fmt02 9 ++ ","
        ++ tempFieldSpec 2345 ++ "," ++ tempFieldSpec (-530) ++ ","
        ++ tempFieldSpec 10000 :=
  claimC8_record_format 14 5 9 2345 (-530) 10000
    (by norm_num) (by norm_num) (by norm_num)

end TempLogger
